import Mathlib

/-!
Shallow embedding of the GeoMind-Extractor core (structured extraction
engine, pipeline orchestrator, synthesizer) together with proofs about the
specified properties.

Conventions of the embedding:
* Python strings are modelled as `List Char` where character-level
  processing matters (response cleaning, JSON parsing) and as `String`
  elsewhere.
* `json.loads` is modelled by an executable recursive-descent parser over
  the JSON fragment without floats and without string escapes; this is the
  fragment exercised by the development and the restriction is irrelevant
  to the claims (which concern where parsing is attempted, not the number
  grammar).
* Python floats are modelled as rationals; no claim depends on binary
  rounding.
* `uuid.uuid4()` and wall-clock timestamps are nondeterministic; uuids are
  modelled by an explicit supply passed as a function argument, and
  timestamp fields are omitted.
* Python exceptions are modelled by `Except`/`Option` results: a caught
  exception is an `.error`/`none` value, and total Lean functions model
  the code paths on which the source cannot raise.
-/

namespace GeoMind

/-! ## JSON values and a model of `json.loads` -/

/-- JSON values (numbers restricted to integers, strings without escapes). -/
inductive Json where
  | null
  | bool (b : Bool)
  | num (n : Int)
  | str (s : List Char)
  | arr (elems : List Json)
  | obj (fields : List (List Char × Json))

/-- JSON whitespace accepted by `json.loads` between tokens. -/
def isJsonWs (c : Char) : Bool :=
  c = ' ' || c = '\t' || c = '\n' || c = '\r'

/-- Skip leading JSON whitespace. -/
def skipWs (s : List Char) : List Char := s.dropWhile isJsonWs

/-- Parse a maximal nonempty run of decimal digits. -/
def parseDigits (s : List Char) : Option (Nat × List Char) :=
  let ds := s.takeWhile Char.isDigit
  if ds.isEmpty then none
  else some (ds.foldl (fun acc c => acc * 10 + (c.toNat - 48)) 0, s.drop ds.length)

/-- Parse the body of a JSON string after the opening quote (escapes are
rejected, which keeps the model sound on every input we use). -/
def parseStringBody : List Char → Option (List Char × List Char)
  | [] => none
  | c :: rest =>
    if c = '"' then some ([], rest)
    else if c = '\\' then none
    else
      match parseStringBody rest with
      | some (s, r) => some (c :: s, r)
      | none => none

mutual

/-- Parse one JSON value; fuel bounds the recursion depth. -/
def parseValue : Nat → List Char → Option (Json × List Char)
  | 0, _ => none
  | fuel + 1, s =>
    match skipWs s with
    | [] => none
    | c :: rest =>
      if c = '{' then
        match skipWs rest with
        | '}' :: rest2 => some (.obj [], rest2)
        | s2 => (parseFields fuel s2).map (fun p => (.obj p.1, p.2))
      else if c = '[' then
        match skipWs rest with
        | ']' :: rest2 => some (.arr [], rest2)
        | s2 => (parseElems fuel s2).map (fun p => (.arr p.1, p.2))
      else if c = '"' then
        (parseStringBody rest).map (fun p => (.str p.1, p.2))
      else if c = 't' then
        if rest.take 3 = ['r', 'u', 'e'] then some (.bool true, rest.drop 3) else none
      else if c = 'f' then
        if rest.take 4 = ['a', 'l', 's', 'e'] then some (.bool false, rest.drop 4) else none
      else if c = 'n' then
        if rest.take 3 = ['u', 'l', 'l'] then some (.null, rest.drop 3) else none
      else if c = '-' then
        (parseDigits rest).map (fun p => (.num (-(p.1 : Int)), p.2))
      else if c.isDigit then
        (parseDigits (c :: rest)).map (fun p => (.num (p.1 : Int), p.2))
      else none

/-- Parse the members of a JSON object after the opening brace. -/
def parseFields : Nat → List Char → Option (List (List Char × Json) × List Char)
  | 0, _ => none
  | fuel + 1, s =>
    match skipWs s with
    | '"' :: rest =>
      match parseStringBody rest with
      | some (key, rest2) =>
        match skipWs rest2 with
        | ':' :: rest3 =>
          match parseValue fuel rest3 with
          | some (v, rest4) =>
            match skipWs rest4 with
            | ',' :: rest5 =>
              (parseFields fuel rest5).map (fun p => ((key, v) :: p.1, p.2))
            | '}' :: rest5 => some ([(key, v)], rest5)
            | _ => none
          | none => none
        | _ => none
      | none => none
    | _ => none

/-- Parse the elements of a JSON array after the opening bracket. -/
def parseElems : Nat → List Char → Option (List Json × List Char)
  | 0, _ => none
  | fuel + 1, s =>
    match parseValue fuel s with
    | some (v, rest) =>
      match skipWs rest with
      | ',' :: rest2 => (parseElems fuel rest2).map (fun p => (v :: p.1, p.2))
      | ']' :: rest2 => some ([v], rest2)
      | _ => none
    | none => none

end

/-- Model of Python `json.loads`: the whole input (up to surrounding
whitespace) must be one JSON document, otherwise a decode error is raised
(here: returned). -/
def jsonLoads (s : List Char) : Except String Json :=
  match parseValue (s.length + 1) s with
  | some (j, rest) => if (skipWs rest).isEmpty then .ok j else .error "Extra data"
  | none => .error "Expecting value"

/-! ## Response cleaning (`llm_extractor.get_structured_data_with_retry`) -/

/-- Remove every non-overlapping occurrence of a (nonempty) pattern,
scanning left to right: Python `str.replace(pat, "")`. -/
def removeAllGo (pat : List Char) : Nat → List Char → List Char
  | _, [] => []
  | 0, s => s
  | fuel + 1, c :: rest =>
    if pat.isPrefixOf (c :: rest) then
      removeAllGo pat fuel (List.drop (pat.length - 1) rest)
    else c :: removeAllGo pat fuel rest

/-- Python `s.replace(pat, "")` for a nonempty pattern. -/
def removeAll (pat s : List Char) : List Char := removeAllGo pat s.length s

/-- Characters stripped by Python `str.strip()` (ASCII whitespace). -/
def isPyWs (c : Char) : Bool :=
  c = ' ' || c = '\t' || c = '\n' || c = '\r' || c = '\x0b' || c = '\x0c'

/-- Python `str.strip()`. -/
def pyStrip (s : List Char) : List Char :=
  ((s.dropWhile isPyWs).reverse.dropWhile isPyWs).reverse

/-- The pattern removed first by the response cleaner. -/
def fenceJsonPat : List Char := "```json".toList

/-- The pattern removed second by the response cleaner. -/
def fencePat : List Char := "```".toList

/-- Model of `response.text.replace("```json", "").replace("```", "").strip()`,
the only text normalisation performed before `json.loads`. -/
def cleanResponse (text : List Char) : List Char :=
  pyStrip (removeAll fencePat (removeAll fenceJsonPat text))

/-! ## The structured extraction engine
(`src/entity_extraction/llm_extractor.py`) -/

/-- A declared schema: `model_class.parse_obj` (validation of a parsed JSON
payload, raising `ValidationError` on failure, here an `.error`) and
`validated_data.dict()` (serialisation of a validated instance). -/
structure Schema (T : Type) where
  parse_obj : Json → Except String T
  dict : T → Json

/-- One element of the `input_data` list: a plain string, an uploaded file
object (contributing its `.name` to the cache key), or any other object
(contributing `str(item)`). -/
inductive InputItem where
  | str (s : String)
  | file (name : String)
  | other (asStr : String)
deriving DecidableEq

/-- The contribution of one `input_data` item to the cache-key seed
(`generate_cache_key`). -/
def itemKeyPart : InputItem → String
  | .str s => s
  | .file n => n
  | .other r => r

/-- `generate_cache_key(prompt, input_data)`: the key seed is the prompt
followed by the serialisations of `input_data[1:]`.  The SHA-256 digest is
modelled by the seed itself: only agreement of keys on equal inputs is
used, never injectivity of the digest. -/
def generate_cache_key (prompt : String) (input_data : List InputItem) : String :=
  (input_data.drop 1).foldl (fun acc it => acc ++ itemKeyPart it) prompt

/-- The persistent cache: a JSON-object file, i.e. an insertion-ordered
dictionary from key strings to cached JSON payloads. -/
abbrev Cache := List (String × Json)

/-- Dictionary lookup (`cache_key in cache` / `cache[cache_key]`). -/
def cacheLookup (key : String) (c : Cache) : Option Json :=
  (c.find? (fun kv => kv.1 = key)).map (fun kv => kv.2)

/-- Dictionary update `cache[cache_key] = value` (replace the existing
binding, else append; Python dicts preserve insertion order). -/
def cachePut (key : String) (v : Json) : Cache → Cache
  | [] => [(key, v)]
  | kv :: rest => if kv.1 = key then (key, v) :: rest else kv :: cachePut key v rest

/-- Outcome of one `agent.process_input` call: either the call raised
(caught by the engine's outer `except`) or it returned a response whose
`.text` is the given string. -/
inductive ServiceOutcome where
  | err (msg : String)
  | ok (text : List Char)

/-- The corrective feedback block appended after a parse/validation
failure, quoting the literal error text. -/
def feedbackText (errMsg : String) : String :=
  "Your previous response was not valid. Error: " ++ errMsg ++
    ". Please review the required JSON structure, correct the error, and provide only the valid JSON object."

/-- The rebuilt prompt `f"{base_prompt}\n\n--- FEEDBACK ---\n{feedback}"`
written into `current_input[0]` before the next attempt. -/
def augmentedPrompt (base_prompt errMsg : String) : String :=
  base_prompt ++ "\n\n--- FEEDBACK ---\n" ++ feedbackText errMsg

/-- One attempt's data handling: clean the response text, `json.loads` it,
then validate against the schema; either failure lands in the same
`except (JSONDecodeError, ValidationError)` handler. -/
def parseAttempt {T : Type} (sch : Schema T) (text : List Char) : Except String T :=
  match jsonLoads (cleanResponse text) with
  | .error e => .error e
  | .ok j => sch.parse_obj j

/-- The observable outcome of one engine call: the returned value (`none`
models the explicit `return None`), the cache contents afterwards, the
number of completion-service invocations made, and the caller's
`input_data` list afterwards (the engine aliases, not copies, it). -/
structure RunResult (T : Type) where
  result : Option T
  cache : Cache
  calls : Nat
  input_data : List InputItem

/-- The `for attempt in range(max_retries)` loop.  `left` is the number of
iterations still to run and `attempt` the current 0-based attempt index
(equal to the number of service calls already made).  A raised service
call is caught and retried without prompt change; a parse/validation
failure rewrites `input_data[0]` to the feedback-augmented prompt when
attempts remain; a success writes the cache and returns. -/
def retryGo {T : Type} (sch : Schema T) (agent : Nat → ServiceOutcome)
    (base_prompt : String) (cache_key : String) (max_retries : Nat) :
    Nat → Nat → Cache → List InputItem → RunResult T
  | 0, attempt, cache, input_data => ⟨none, cache, attempt, input_data⟩
  | left + 1, attempt, cache, input_data =>
    match agent attempt with
    | .err _ =>
      retryGo sch agent base_prompt cache_key max_retries left (attempt + 1) cache input_data
    | .ok text =>
      match parseAttempt sch text with
      | .ok v =>
        ⟨some v, cachePut cache_key (sch.dict v) cache, attempt + 1, input_data⟩
      | .error e =>
        retryGo sch agent base_prompt cache_key max_retries left (attempt + 1) cache
          (if attempt < max_retries - 1 then
            input_data.set 0 (.str (augmentedPrompt base_prompt e))
          else input_data)

/-- `get_structured_data_with_retry(agent, model_class, base_prompt,
input_data, max_retries)` over an explicit cache state: check the cache
first (re-validating the cached payload against the current schema and
falling through to a fresh fetch when validation fails), then run the
retry loop. -/
def get_structured_data_with_retry {T : Type} (sch : Schema T)
    (agent : Nat → ServiceOutcome) (base_prompt : String)
    (input_data : List InputItem) (max_retries : Nat) (cache : Cache) :
    RunResult T :=
  let cache_key := generate_cache_key base_prompt input_data
  match cacheLookup cache_key cache with
  | some cachedJson =>
    match sch.parse_obj cachedJson with
    | .ok v => ⟨some v, cache, 0, input_data⟩
    | .error _ => retryGo sch agent base_prompt cache_key max_retries max_retries 0 cache input_data
  | none => retryGo sch agent base_prompt cache_key max_retries max_retries 0 cache input_data

/-- A tiny concrete schema used by witness theorems: a JSON object with a
single integer field "a" (stand-in for a one-field Pydantic model). -/
def intFieldSchema : Schema Int where
  parse_obj := fun j =>
    match j with
    | .obj [(k, .num n)] => if k = "a".toList then .ok n else .error "field a missing"
    | _ => .error "field a missing"
  dict := fun n => .obj [("a".toList, .num n)]

/-! ## Document preprocessing and pipeline control flow
(`src/knowledge_synthesis_pipeline.py`, `src/document_processing/pdf_processor.py`) -/

/-- Worker for `str.split(sep)` with a nonempty separator: non-overlapping
splits scanning left to right. -/
def splitOnGo (sep : List Char) : Nat → List Char → List Char → List (List Char)
  | _, acc, [] => [acc.reverse]
  | 0, acc, s => [acc.reverse ++ s]
  | fuel + 1, acc, c :: rest =>
    if sep.isPrefixOf (c :: rest) then
      acc.reverse :: splitOnGo sep fuel [] (List.drop (sep.length - 1) rest)
    else splitOnGo sep fuel (c :: acc) rest

/-- Python `s.split(sep)` for a nonempty separator. -/
def splitOnList (sep s : List Char) : List (List Char) := splitOnGo sep s.length [] s

/-- Python `s.replace('\n', ' ')`. -/
def replaceNlWithSpace (s : List Char) : List Char :=
  s.map (fun c => if c = '\n' then ' ' else c)

/-- `chunk_text_by_paragraph`: split on blank lines, keep chunks whose
stripped length exceeds `min_chunk_size`, normalising newlines to spaces. -/
def chunk_text_by_paragraph (text : List Char) (min_chunk_size : Nat) : List (List Char) :=
  if text = [] then []
  else
    (splitOnList "\n\n".toList text).filterMap (fun chunk =>
      if min_chunk_size < (pyStrip chunk).length then
        some (replaceNlWithSpace (pyStrip chunk))
      else none)

/-- The data `_preprocess_document` hands to the later stages. -/
structure PreprocessResult where
  full_text : List Char
  chunks : List (List Char)

/-- `_preprocess_document` on the already-extracted document text: reject
empty text or text whose stripped length is below 100, then reject a text
with no usable chunks, else succeed. -/
def preprocess_document (full_text : List Char) : Option PreprocessResult :=
  if full_text = [] ∨ (pyStrip full_text).length < 100 then none
  else
    match chunk_text_by_paragraph full_text 50 with
    | [] => none
    | chunks => some ⟨full_text, chunks⟩

/-- What `process_document` returns: the explicit failure dictionary
`\x7b'status': 'failed', 'stage': 'preprocessing'\x7d`, or the compiled
final result of the three stages.  (The stage functions of the embedding
are total, so the outer `except Exception` path of the source cannot
trigger here.) -/
inductive ProcessOutput (F : Type) where
  | preprocessingFailed
  | success (final_result : F)

/-- `process_document`: run preprocessing; on failure return the failure
marker, otherwise run the three pipeline stages (abstracted as `stages`)
and return their compiled result. -/
def process_document {F : Type} (stages : PreprocessResult → F) (full_text : List Char) :
    ProcessOutput F :=
  match preprocess_document full_text with
  | none => .preprocessingFailed
  | some pre => .success (stages pre)

/-! ## Phase-2 fan-out (`_run_expert_agents_parallel`) -/

/-- One task of the task plan, as inspected by the fan-out: an object with
an `agent_type` attribute, a plain dict (`.get('agent_type', '')`), or any
other object (which contributes nothing to `agents_to_run`). -/
inductive TaskItem where
  | typed (agent_type : String)
  | dictTask (agent_type : Option String)
  | otherTask

/-- The `agents_to_run` set assembled from the task plan (kept as a list;
only membership is ever used). -/
def agentsToRun (task_plan : List TaskItem) : List String :=
  task_plan.filterMap (fun t =>
    match t with
    | .typed a => some a
    | .dictTask a => some (a.getD "")
    | .otherTask => none)

/-- The three expert agents the fan-out knows how to submit, in the
insertion order of the `futures` dictionary. -/
def knownExpertAgents : List String := ["map_analyst", "geochemist", "data_analyst"]

/-- The agents for which a future is actually submitted. -/
def requiredAgents (task_plan : List TaskItem) : List String :=
  knownExpertAgents.filter (fun a => (agentsToRun task_plan).contains a)

/-- The recorded outcome of one expert agent: its result, or the failure
marker dict `\x7b'status': 'failed', 'error': str(e)\x7d` recorded when
`future.result(timeout=300)` raised. -/
inductive ExpertEntry (R : Type) where
  | ok (result : R)
  | failed (error : String)

/-- `_run_expert_agents_parallel`: submit one future per required agent and
collect each outcome, catching per-future exceptions/timeouts into failure
entries.  Concurrency is modelled by the per-agent outcome function; the
collection loop is deterministic over the futures dictionary order. -/
def run_expert_agents_parallel {R : Type} (outcome : String → Except String R)
    (task_plan : List TaskItem) : List (String × ExpertEntry R) :=
  (requiredAgents task_plan).map (fun a =>
    (a, match outcome a with
        | .ok r => .ok r
        | .error e => .failed e))

/-! ## Synthesizer data model (`src/agents/synthesizer_agent.py`) -/

/-- `ValidationResult` (pydantic model of the synthesizer). -/
structure ValidationResult where
  is_valid : Bool
  confidence_score : ℚ
  issues : List String
  suggestions : List String

/-- The `properties` dict of one GeoJSON feature. -/
structure FeatureProps where
  name : Option String
  feature_class : Option String
  feature_type : Option String
  description : Option String
  confidence_score : Option ℚ

/-- One GeoJSON feature (the source only ever reads
`geometry.coordinates`; the dict-shaped features are the handled case). -/
structure GeoFeature where
  properties : FeatureProps
  coordinates : List ℚ

/-- The `geospatial_data` payload of the map analyst result. -/
structure GeospatialData where
  features : List GeoFeature

/-- The slice of the map-analyst result dict read by the synthesizer. -/
structure MapResult where
  feature_count : Int
  geospatial_data : Option GeospatialData

/-- A geochemical evidence value (`Union[float, str]`). -/
inductive EvidenceValue where
  | num (q : ℚ)
  | str (s : String)

/-- `GeochemicalEvidence` (pydantic model of the geochemist agent). -/
structure GeochemicalEvidence where
  element : String
  value : EvidenceValue
  unit : String
  measurement_method : Option String
  sample_id : Option String
  confidence_score : ℚ

/-- `GeochemicalConclusion` (pydantic model of the geochemist agent). -/
structure GeochemicalConclusion where
  conclusion_id : String
  rock_type : String
  geochemical_affinity : String
  conclusion_text : String
  supporting_evidence : List GeochemicalEvidence
  confidence_score : ℚ
  source_location : Option String

/-- One element of the conclusions list as inspected by the record mapper:
the mapper keeps only items with a `conclusion_id` attribute
(`hasattr(conclusion, 'conclusion_id')`); anything else is skipped. -/
inductive ConclusionItem where
  | typed (c : GeochemicalConclusion)
  | untyped

/-- The dict-shaped `geochemical_knowledge` payload. -/
structure GeochemBlob where
  conclusions : List ConclusionItem

/-- The slice of the geochemist result dict read by the synthesizer. -/
structure GeochemResult where
  conclusions_count : Int
  geochemical_knowledge : Option GeochemBlob

/-- A cell value of a standardized table row (`Union[str, float, int]`,
numbers collapsed to one constructor). -/
inductive RowValue where
  | str (s : String)
  | num (q : ℚ)

/-- One data row as inspected by the record mapper: `row.data` when the
attribute exists (`none` models a row object without it, for which the
source falls back to the empty dict), plus `row.data_quality_score` with
the same hasattr treatment (default 0.5). -/
structure DrillRow where
  data : Option (List (String × RowValue))
  data_quality_score : Option ℚ

/-- `StandardizedTable`, restricted to the fields the record mapper reads. -/
structure StdTable where
  table_id : String
  table_name : String
  columns : List String
  data_rows : List DrillRow

/-- One element of `standardized_tables` as inspected by the record
mapper, which keeps only items with a `data_rows` attribute. -/
inductive TableItem where
  | typed (t : StdTable)
  | untyped

/-- The dict-shaped `extraction_report` payload. -/
structure ExtractionBlob where
  standardized_tables : List TableItem

/-- The slice of the data-analyst result dict read by the synthesizer. -/
structure DataResult where
  standardized_tables_count : Int
  extraction_report : Option ExtractionBlob

/-- Field map of a `locations` record (`json.dumps(geometry)` modelled by
the geometry itself; timestamp field omitted). -/
structure LocationData where
  location_id : String
  name : String
  location_type : String
  geometry_coordinates : List ℚ
  coordinate_system : String
  description : String
  confidence_score : ℚ
  source_document : String

/-- Field map of a `geochemistry` record (timestamp omitted). -/
structure GeochemistryData where
  geochemistry_id : String
  location_id : Option String
  sample_id : String
  rock_type : String
  geochemical_affinity : String
  analysis_method : String
  confidence_score : ℚ
  source_document : String

/-- Field map of a `geochemical_elements` record. -/
structure ElementData where
  element_id : String
  geochemistry_id : String
  element_name : String
  value : Option ℚ
  unit : String
  detection_limit : Option ℚ
  measurement_method : Option String
  confidence_score : ℚ

/-- Field map of a `drilling_data` record (timestamp omitted). -/
structure DrillingData where
  drill_hole_id : String
  location_id : String
  hole_name : RowValue
  depth_from : RowValue
  depth_to : RowValue
  lithology : RowValue
  alteration : RowValue
  mineralization : RowValue
  confidence_score : ℚ
  source_document : String

/-- The typed `data` payload of a `DatabaseRecord`. -/
inductive RecordData where
  | location (d : LocationData)
  | geochemistry (d : GeochemistryData)
  | element (d : ElementData)
  | drilling (d : DrillingData)

/-- One entry of a record's `relationships` list. -/
structure DbRel where
  table : String
  foreign_key : String
  referenced_id : String

/-- `DatabaseRecord` (metadata dict omitted). -/
structure DatabaseRecord where
  table_name : String
  record_id : String
  data : RecordData
  relationships : List DbRel

/-! ## Synthesizer validators and record mapping -/

/-- `_validate_spatial_consistency`: penalise a missing feature count,
then penalise invalid coordinates (empty, or exactly `[0.0, 0.0]`) in
proportion to their share; `is_valid` iff no issue was recorded.  (The
unused `intermediate_kg` parameter of the source is dropped.) -/
def validate_spatial_consistency (map_result : MapResult) : ValidationResult :=
  let issues0 : List String :=
    if map_result.feature_count < 1 then ["No spatial features extracted"] else []
  let suggestions0 : List String :=
    if map_result.feature_count < 1 then
      ["Consider improving map analysis or using alternative extraction methods"]
    else []
  let confidence0 : ℚ := if map_result.feature_count < 1 then 1 - 3/10 else 1
  match map_result.geospatial_data with
  | none =>
    { is_valid := issues0.isEmpty, confidence_score := max 0 confidence0,
      issues := issues0, suggestions := suggestions0 }
  | some g =>
    let total_features := g.features.length
    let invalid_coords :=
      (g.features.filter (fun f => f.coordinates.isEmpty || f.coordinates == [0, 0])).length
    if 0 < invalid_coords then
      let issues := issues0 ++
        [toString invalid_coords ++ "/" ++ toString total_features ++
          " features have invalid coordinates"]
      let confidence := confidence0 - ((invalid_coords : ℚ) / (total_features : ℚ)) * (2/5)
      { is_valid := issues.isEmpty, confidence_score := max 0 confidence,
        issues := issues,
        suggestions := suggestions0 ++
          ["Review coordinate extraction logic and source data quality"] }
    else
      { is_valid := issues0.isEmpty, confidence_score := max 0 confidence0,
        issues := issues0, suggestions := suggestions0 }

/-- `_validate_geochemical_consistency`: one possible issue when no
conclusion was extracted, one when conclusions exist without supporting
tables; `is_valid` iff fewer than two issues were recorded. -/
def validate_geochemical_consistency (conclusions_count tables_count : Int) : ValidationResult :=
  let issues0 : List String :=
    if conclusions_count < 1 then ["No geochemical conclusions extracted"] else []
  let suggestions0 : List String :=
    if conclusions_count < 1 then
      ["Ensure geochemical analysis texts are properly identified"]
    else []
  let confidence0 : ℚ := if conclusions_count < 1 then 1 - 2/5 else 1
  let issues :=
    issues0 ++
      (if 0 < conclusions_count ∧ tables_count = 0 then
        ["Geochemical conclusions found but no supporting data tables"]
      else [])
  let suggestions :=
    suggestions0 ++
      (if 0 < conclusions_count ∧ tables_count = 0 then
        ["Improve table extraction to support geochemical conclusions"]
      else [])
  let confidence :=
    confidence0 - (if 0 < conclusions_count ∧ tables_count = 0 then 3/10 else 0)
  { is_valid := issues.length < 2, confidence_score := max 0 confidence,
    issues := issues, suggestions := suggestions }

/-- `_validate_data_completeness`: the fraction of the three data
categories that are present, with a single issue and a lowered confidence
when it is below 0.67.  (The interpolated percentage of the issue string
is omitted.) -/
def validate_data_completeness (m : MapResult) (conclusions_count tables_count : Int) :
    ValidationResult :=
  let has_spatial : Bool := 0 < m.feature_count
  let has_geochem : Bool := 0 < conclusions_count
  let has_tables : Bool := 0 < tables_count
  let data_completeness : ℚ :=
    ((if has_spatial then 1 else 0) + (if has_geochem then 1 else 0) +
      (if has_tables then 1 else 0)) / 3
  if data_completeness < 67/100 then
    { is_valid := false, confidence_score := data_completeness,
      issues := ["Low data completeness"],
      suggestions := ["Ensure all types of geological data are properly extracted"] }
  else
    { is_valid := true, confidence_score := 1, issues := [], suggestions := [] }

/-- `_cross_validate_knowledge`: the three checks, keyed as in the source. -/
def cross_validate_knowledge (m : MapResult) (g : GeochemResult) (d : DataResult) :
    List (String × ValidationResult) :=
  [("spatial_consistency", validate_spatial_consistency m),
   ("geochemical_consistency",
     validate_geochemical_consistency g.conclusions_count d.standardized_tables_count),
   ("data_completeness",
     validate_data_completeness m g.conclusions_count d.standardized_tables_count)]

/-- `_create_location_records`: one `locations` record per feature, with
fresh ids drawn from the supply by feature position. -/
def create_location_records_go (uuid : Nat → String) (source_document : String) :
    Nat → List GeoFeature → List DatabaseRecord
  | _, [] => []
  | idx, f :: rest =>
    { table_name := "locations", record_id := uuid idx,
      data := .location {
        location_id := uuid idx,
        name := f.properties.name.getD "Unnamed Location",
        location_type := f.properties.feature_class.getD "unknown",
        geometry_coordinates := f.coordinates,
        coordinate_system := "WGS84",
        description := f.properties.description.getD "",
        confidence_score := f.properties.confidence_score.getD (1/2),
        source_document := source_document },
      relationships := [] } :: create_location_records_go uuid source_document (idx + 1) rest

/-- `_create_location_records` on the `geospatial_data` payload. -/
def create_location_records (uuid : Nat → String) (source_document : String)
    (geospatial_data : Option GeospatialData) : List DatabaseRecord :=
  match geospatial_data with
  | none => []
  | some g => create_location_records_go uuid source_document 0 g.features

/-- `_create_element_records`: one `geochemical_elements` record per
supporting evidence entry, linked to its geochemistry record. -/
def create_element_records_go (ids : Nat → String) (gid : String) :
    Nat → List GeochemicalEvidence → List DatabaseRecord
  | _, [] => []
  | k, ev :: rest =>
    { table_name := "geochemical_elements", record_id := ids k,
      data := .element {
        element_id := ids k, geochemistry_id := gid, element_name := ev.element,
        value := match ev.value with | .num q => some q | .str _ => none,
        unit := ev.unit, detection_limit := none,
        measurement_method := ev.measurement_method,
        confidence_score := ev.confidence_score },
      relationships := [⟨"geochemistry", "geochemistry_id", gid⟩] }
      :: create_element_records_go ids gid (k + 1) rest

/-- The records contributed by one typed conclusion: its `geochemistry`
record — linked to the first location record when one exists, with an
absent foreign key otherwise — followed by its element records. -/
def create_records_for_conclusion (uuid : Nat → Nat → String) (source_document : String)
    (location_records : List DatabaseRecord) (idx : Nat) (c : GeochemicalConclusion) :
    List DatabaseRecord :=
  let associated_location_id := location_records.head?.map (fun r => r.record_id)
  let gid := uuid idx 0
  { table_name := "geochemistry", record_id := gid,
    data := .geochemistry {
      geochemistry_id := gid, location_id := associated_location_id,
      sample_id := "sample_" ++ c.conclusion_id, rock_type := c.rock_type,
      geochemical_affinity := c.geochemical_affinity,
      analysis_method := "literature_extraction",
      confidence_score := c.confidence_score, source_document := source_document },
    relationships :=
      match associated_location_id with
      | some lid => [⟨"locations", "location_id", lid⟩]
      | none => [] }
    :: create_element_records_go (fun k => uuid idx (k + 1)) gid 0 c.supporting_evidence

/-- Loop of `_create_geochemistry_records` over the conclusions list,
skipping items without a `conclusion_id` attribute. -/
def create_geochemistry_records_go (uuid : Nat → Nat → String) (source_document : String)
    (location_records : List DatabaseRecord) : Nat → List ConclusionItem → List DatabaseRecord
  | _, [] => []
  | idx, .untyped :: rest =>
    create_geochemistry_records_go uuid source_document location_records (idx + 1) rest
  | idx, .typed c :: rest =>
    create_records_for_conclusion uuid source_document location_records idx c ++
      create_geochemistry_records_go uuid source_document location_records (idx + 1) rest

/-- `_create_geochemistry_records` on the dict-shaped payload. -/
def create_geochemistry_records (uuid : Nat → Nat → String) (source_document : String)
    (geochem_knowledge : Option GeochemBlob) (location_records : List DatabaseRecord) :
    List DatabaseRecord :=
  match geochem_knowledge with
  | none => []
  | some gk => create_geochemistry_records_go uuid source_document location_records 0 gk.conclusions

/-- The exact column names whose lowercase form marks a drilling table. -/
def drillingKeyCols : List String := ["depth", "hole", "drill", "lithology"]

/-- ASCII `str.lower()` on one character. -/
def lowerChar (c : Char) : Char :=
  if 'A' ≤ c ∧ c ≤ 'Z' then Char.ofNat (c.toNat + 32) else c

/-- ASCII `str.lower()`. -/
def lowerString (s : String) : String := String.mk (s.toList.map lowerChar)

/-- `row_data.get(key)`. -/
def rowGet (d : List (String × RowValue)) (k : String) : Option RowValue :=
  (d.find? (fun kv => kv.1 = k)).map (fun kv => kv.2)

/-- The `drilling_data` record built from one row of a drilling table. -/
def create_drilling_record_for_row (source_document : String) (location_id : String)
    (hid : String) (row : DrillRow) : DatabaseRecord :=
  let row_data := row.data.getD []
  { table_name := "drilling_data", record_id := hid,
    data := .drilling {
      drill_hole_id := hid, location_id := location_id,
      hole_name := (rowGet row_data "Hole").getD
        ((rowGet row_data "ID").getD (.str ("hole_" ++ String.mk (hid.toList.take 8)))),
      depth_from := (rowGet row_data "Depth_From").getD (.num 0),
      depth_to := (rowGet row_data "Depth_To").getD (.num 0),
      lithology := (rowGet row_data "Lithology").getD (.str ""),
      alteration := (rowGet row_data "Alteration").getD (.str ""),
      mineralization := (rowGet row_data "Mineralization").getD (.str ""),
      confidence_score := row.data_quality_score.getD (1/2),
      source_document := source_document },
    relationships := [⟨"locations", "location_id", location_id⟩] }

/-- Row loop of `_create_drilling_records` inside one drilling table. -/
def create_drilling_rows_go (uuid : Nat → String) (source_document : String)
    (location_id : String) : Nat → List DrillRow → List DatabaseRecord
  | _, [] => []
  | ri, row :: rest =>
    create_drilling_record_for_row source_document location_id (uuid ri) row
      :: create_drilling_rows_go uuid source_document location_id (ri + 1) rest

/-- Table loop of `_create_drilling_records`: a table contributes rows only
when it has a `data_rows` attribute, looks like a drilling table (one of
its column names lowercases to depth/hole/drill/lithology) **and** at
least one location record exists; otherwise it contributes nothing. -/
def create_drilling_records_go (uuid : Nat → Nat → String) (source_document : String)
    (location_records : List DatabaseRecord) : Nat → List TableItem → List DatabaseRecord
  | _, [] => []
  | ti, .untyped :: rest =>
    create_drilling_records_go uuid source_document location_records (ti + 1) rest
  | ti, .typed t :: rest =>
    (match location_records with
     | [] => []
     | l0 :: _ =>
       if t.columns.any (fun col => drillingKeyCols.contains (lowerString col)) then
         create_drilling_rows_go (fun ri => uuid ti ri) source_document l0.record_id 0 t.data_rows
       else []) ++
      create_drilling_records_go uuid source_document location_records (ti + 1) rest

/-- `_create_drilling_records` on the dict-shaped payload. -/
def create_drilling_records (uuid : Nat → Nat → String) (source_document : String)
    (extraction_report : Option ExtractionBlob) (location_records : List DatabaseRecord) :
    List DatabaseRecord :=
  match extraction_report with
  | none => []
  | some er => create_drilling_records_go uuid source_document location_records 0 er.standardized_tables

/-- `_map_to_database_schema`: locations first, then geochemistry (with
element records), then drilling data, the latter two linked against the
location records. -/
def map_to_database_schema (uuidLoc : Nat → String) (uuidGeo uuidDrill : Nat → Nat → String)
    (document_source : String) (m : MapResult) (g : GeochemResult) (d : DataResult) :
    List DatabaseRecord :=
  let spatial := create_location_records uuidLoc document_source m.geospatial_data
  spatial ++ create_geochemistry_records uuidGeo document_source g.geochemical_knowledge spatial ++
    create_drilling_records uuidDrill document_source d.extraction_report spatial

/-- `SynthesizedKnowledge` (root output object; the fused knowledge graph
is not read by any claim and is omitted, and the processing-metadata dict
is flattened into the last two fields). -/
structure SynthesizedKnowledge where
  knowledge_id : String
  document_source : String
  spatial_features : MapResult
  geochemical_knowledge : GeochemResult
  structured_data : DataResult
  database_records : List DatabaseRecord
  validation_results : List (String × ValidationResult)
  validation_passed : Bool
  overall_confidence : ℚ

/-- The dict returned by `SynthesizerAgent.process`: its success dict
carries an overall confidence and no error, its failure dict (returned by
the `except` handler) carries no knowledge, a zero record count and the
stringified exception. -/
structure SynthesisOutput where
  synthesized_knowledge : Option SynthesizedKnowledge
  database_records_count : Nat
  processing_status : String
  overall_confidence : Option ℚ
  error : Option String

/-- `_calculate_overall_confidence`: mean of the validation confidences,
0.5 when there are none. -/
def calculate_overall_confidence (validation_results : List (String × ValidationResult)) : ℚ :=
  if validation_results.isEmpty then 1/2
  else (validation_results.map (fun p => p.2.confidence_score)).sum / validation_results.length

/-- The runtime shape of one expert payload inside a result dict.  The
source duck-types these values: a successful expert stores a live pydantic
model (`GeospatialData`, `GeochemicalKnowledge`, `DataExtractionReport`),
a failed one stores `None`, and a dict shape arises only from serialized
results.  A pydantic model is truthy but has no `.get`, so the
synthesizer's dict-only accessors raise `AttributeError` on it. -/
inductive PyPayload (α : Type) where
  | absent
  | pyDict (a : α)
  | pyObj (a : α)

/-- Whether the payload is a live pydantic object. -/
def PyPayload.isObj {α : Type} : PyPayload α → Bool
  | .pyObj _ => true
  | _ => false

/-- The content of a payload, shape forgotten (the shape-tolerant readers
of the source, e.g. the `hasattr`-guarded node extractors, see this). -/
def PyPayload.toOption {α : Type} : PyPayload α → Option α
  | .absent => none
  | .pyDict a => some a
  | .pyObj a => some a

/-- The map-analyst result dict as the synthesizer receives it. -/
structure MapResultDuck where
  feature_count : Int
  geospatial_data : PyPayload GeospatialData

/-- The geochemist result dict as the synthesizer receives it. -/
structure GeochemResultDuck where
  conclusions_count : Int
  geochemical_knowledge : PyPayload GeochemBlob

/-- The data-analyst result dict as the synthesizer receives it. -/
structure DataResultDuck where
  standardized_tables_count : Int
  extraction_report : PyPayload ExtractionBlob

/-- The slice of the synthesizer's input dict that its process reads. -/
structure SynthInputDuck where
  document_source : String
  map_result : MapResultDuck
  geochem_result : GeochemResultDuck
  data_result : DataResultDuck

/-- Shape-forgetting view of the map result. -/
def MapResultDuck.toMapResult (m : MapResultDuck) : MapResult :=
  ⟨m.feature_count, m.geospatial_data.toOption⟩

/-- Shape-forgetting view of the geochemist result. -/
def GeochemResultDuck.toGeochemResult (g : GeochemResultDuck) : GeochemResult :=
  ⟨g.conclusions_count, g.geochemical_knowledge.toOption⟩

/-- Shape-forgetting view of the data-analyst result. -/
def DataResultDuck.toDataResult (d : DataResultDuck) : DataResult :=
  ⟨d.standardized_tables_count, d.extraction_report.toOption⟩

/-- `_validate_spatial_consistency` as executed: `if geospatial_data:`
passes for any non-None payload, and the following
`geospatial_data.get('features', [])` raises `AttributeError` when the
payload is a pydantic object rather than a dict. -/
def validate_spatial_consistency_duck (m : MapResultDuck) : Except String ValidationResult :=
  match m.geospatial_data with
  | .pyObj _ => .error "AttributeError: GeospatialData object has no attribute get"
  | .absent => .ok (validate_spatial_consistency ⟨m.feature_count, none⟩)
  | .pyDict g => .ok (validate_spatial_consistency ⟨m.feature_count, some g⟩)

/-- `_cross_validate_knowledge` as executed: the spatial check runs first
and is the only one that can raise (the other two read only integer
counts from the result dicts themselves). -/
def cross_validate_knowledge_duck (m : MapResultDuck) (g : GeochemResultDuck)
    (d : DataResultDuck) : Except String (List (String × ValidationResult)) :=
  match validate_spatial_consistency_duck m with
  | .error e => .error e
  | .ok sv =>
    .ok [("spatial_consistency", sv),
      ("geochemical_consistency",
        validate_geochemical_consistency g.conclusions_count d.standardized_tables_count),
      ("data_completeness",
        validate_data_completeness ⟨m.feature_count, none⟩ g.conclusions_count
          d.standardized_tables_count)]

/-- `_create_location_records` as executed: `if not geospatial_data:`
skips only a None payload; on a pydantic payload the following
`.get('features', [])` raises. -/
def create_location_records_duck (uuid : Nat → String) (src : String) (m : MapResultDuck) :
    Except String (List DatabaseRecord) :=
  match m.geospatial_data with
  | .pyObj _ => .error "AttributeError: GeospatialData object has no attribute get"
  | .absent => .ok (create_location_records uuid src none)
  | .pyDict g => .ok (create_location_records uuid src (some g))

/-- `_create_geochemistry_records` as executed: the unguarded
`geochem_knowledge.get('conclusions', [])` raises on a pydantic payload. -/
def create_geochemistry_records_duck (uuid : Nat → Nat → String) (src : String)
    (g : GeochemResultDuck) (location_records : List DatabaseRecord) :
    Except String (List DatabaseRecord) :=
  match g.geochemical_knowledge with
  | .pyObj _ => .error "AttributeError: GeochemicalKnowledge object has no attribute get"
  | .absent => .ok (create_geochemistry_records uuid src none location_records)
  | .pyDict gk => .ok (create_geochemistry_records uuid src (some gk) location_records)

/-- `_create_drilling_records` as executed: the unguarded
`extraction_report.get('standardized_tables', [])` raises on a pydantic
payload. -/
def create_drilling_records_duck (uuid : Nat → Nat → String) (src : String)
    (d : DataResultDuck) (location_records : List DatabaseRecord) :
    Except String (List DatabaseRecord) :=
  match d.extraction_report with
  | .pyObj _ => .error "AttributeError: DataExtractionReport object has no attribute get"
  | .absent => .ok (create_drilling_records uuid src none location_records)
  | .pyDict er => .ok (create_drilling_records uuid src (some er) location_records)

/-- `_map_to_database_schema` as executed: locations, then geochemistry,
then drilling data; the first raised `AttributeError` aborts the whole
mapping. -/
def map_to_database_schema_duck (uuidLoc : Nat → String)
    (uuidGeo uuidDrill : Nat → Nat → String) (src : String) (m : MapResultDuck)
    (g : GeochemResultDuck) (d : DataResultDuck) : Except String (List DatabaseRecord) :=
  match create_location_records_duck uuidLoc src m with
  | .error e => .error e
  | .ok spatial =>
    match create_geochemistry_records_duck uuidGeo src g spatial with
    | .error e => .error e
    | .ok geo =>
      match create_drilling_records_duck uuidDrill src d spatial with
      | .error e => .error e
      | .ok drill => .ok (spatial ++ geo ++ drill)

/-- The failure dict returned by the `except` handler of
`SynthesizerAgent.process`. -/
def synthesisFailure (e : String) : SynthesisOutput :=
  { synthesized_knowledge := none, database_records_count := 0,
    processing_status := "failed", overall_confidence := none, error := some e }

/-- `SynthesizerAgent.process`: build the intermediate knowledge graph
(whose node extractors are `hasattr`-guarded and cannot raise on these
payloads; the graph itself is read by no claim and is omitted), then
cross-validate, synthesize the knowledge object and map the database
records; any `AttributeError` raised by the dict-only accessors on a live
pydantic payload lands in the `except` handler, which returns the failure
dict with `synthesized_knowledge = None`. -/
def synthesizer_process (uuidK : String) (uuidLoc : Nat → String)
    (uuidGeo uuidDrill : Nat → Nat → String) (input : SynthInputDuck) : SynthesisOutput :=
  match cross_validate_knowledge_duck input.map_result input.geochem_result
      input.data_result with
  | .error e => synthesisFailure e
  | .ok validation_results =>
    match map_to_database_schema_duck uuidLoc uuidGeo uuidDrill input.document_source
        input.map_result input.geochem_result input.data_result with
    | .error e => synthesisFailure e
    | .ok database_records =>
      { synthesized_knowledge := some {
          knowledge_id := uuidK,
          document_source := input.document_source,
          spatial_features := input.map_result.toMapResult,
          geochemical_knowledge := input.geochem_result.toGeochemResult,
          structured_data := input.data_result.toDataResult,
          database_records := database_records,
          validation_results := validation_results,
          validation_passed := validation_results.all (fun p => p.2.is_valid),
          overall_confidence :=
            if validation_results.isEmpty then 0
            else (validation_results.map (fun p => p.2.confidence_score)).sum /
              validation_results.length },
        database_records_count := database_records.length,
        processing_status := "success",
        overall_confidence := some (calculate_overall_confidence validation_results),
        error := none }

/-- The number of conclusions the record mapper's `hasattr` filter keeps. -/
def countTypedConclusions : List ConclusionItem → Nat
  | [] => 0
  | .typed _ :: rest => countTypedConclusions rest + 1
  | .untyped :: rest => countTypedConclusions rest

/-! ## Engine lemmas -/

/-- Looking a key up right after writing it returns the written value. -/
theorem cacheLookup_cachePut_self (key : String) (v : Json) :
    ∀ c : Cache, cacheLookup key (cachePut key v c) = some v := by
  intro c
  induction c with
  | nil => simp [cachePut, cacheLookup, List.find?]
  | cons kv rest ih =>
    by_cases h : kv.1 = key
    · simp [cachePut, h, cacheLookup, List.find?]
    · simp only [cachePut, if_neg h]
      simpa [cacheLookup, List.find?, h] using ih

/-- A successful attempt means the schema accepted some parsed JSON value. -/
theorem parseAttempt_ok_parse_obj {T : Type} (sch : Schema T) (t : List Char) (v : T)
    (h : parseAttempt sch t = .ok v) : ∃ j, sch.parse_obj j = .ok v := by
  unfold parseAttempt at h
  cases hj : jsonLoads (cleanResponse t) with
  | error e => rw [hj] at h; exact absurd h (by simp)
  | ok j => rw [hj] at h; exact ⟨j, h⟩

/-- If every remaining attempt gets a response that fails to parse or
validate, the loop runs all remaining iterations, makes one service call
per iteration, returns `none` and leaves the cache untouched. -/
theorem retryGo_all_fail {T : Type} (sch : Schema T) (agent : Nat → ServiceOutcome)
    (bp key : String) (mr : Nat) :
    ∀ left attempt cache input,
    (∀ n, attempt ≤ n → n < attempt + left →
      ∃ t e, agent n = .ok t ∧ parseAttempt sch t = .error e) →
    (retryGo sch agent bp key mr left attempt cache input).result = none ∧
    (retryGo sch agent bp key mr left attempt cache input).calls = attempt + left ∧
    (retryGo sch agent bp key mr left attempt cache input).cache = cache := by
  intro left
  induction left with
  | zero => intro attempt cache input _; exact ⟨rfl, rfl, rfl⟩
  | succ m ih =>
    intro attempt cache input h
    obtain ⟨t, e, hat, hpe⟩ := h attempt (le_refl _) (by omega)
    have step := ih (attempt + 1) cache
      (if attempt < mr - 1 then input.set 0 (.str (augmentedPrompt bp e)) else input)
      (fun n h1 h2 => h n (by omega) (by omega))
    simp only [retryGo, hat, hpe]
    exact ⟨step.1, by rw [step.2.1]; omega, step.2.2⟩

/-- The returned value, the number of service calls and the final state of
the caller's `input_data` do not depend on the cache contents (the loop
only ever writes the cache). -/
theorem retryGo_cache_agnostic {T : Type} (sch : Schema T) (agent : Nat → ServiceOutcome)
    (bp key : String) (mr : Nat) :
    ∀ left attempt input c₁ c₂,
    (retryGo sch agent bp key mr left attempt c₁ input).result =
      (retryGo sch agent bp key mr left attempt c₂ input).result ∧
    (retryGo sch agent bp key mr left attempt c₁ input).calls =
      (retryGo sch agent bp key mr left attempt c₂ input).calls ∧
    (retryGo sch agent bp key mr left attempt c₁ input).input_data =
      (retryGo sch agent bp key mr left attempt c₂ input).input_data := by
  intro left
  induction left with
  | zero => intro attempt input c₁ c₂; exact ⟨rfl, rfl, rfl⟩
  | succ m ih =>
    intro attempt input c₁ c₂
    cases hat : agent attempt with
    | err msg => simpa only [retryGo, hat] using ih (attempt + 1) input c₁ c₂
    | ok t =>
      cases hpe : parseAttempt sch t with
      | ok v => simp [retryGo, hat, hpe]
      | error e => simpa only [retryGo, hat, hpe] using ih (attempt + 1) _ c₁ c₂

/-- Any value the loop returns came out of a successful schema validation. -/
theorem retryGo_result_valid {T : Type} (sch : Schema T) (agent : Nat → ServiceOutcome)
    (bp key : String) (mr : Nat) :
    ∀ left attempt cache input (v : T),
    (retryGo sch agent bp key mr left attempt cache input).result = some v →
    ∃ j, sch.parse_obj j = .ok v := by
  intro left
  induction left with
  | zero => intro attempt cache input v h; exact absurd h (by simp [retryGo])
  | succ m ih =>
    intro attempt cache input v h
    cases hat : agent attempt with
    | err msg =>
      simp only [retryGo, hat] at h
      exact ih (attempt + 1) cache input v h
    | ok t =>
      cases hpe : parseAttempt sch t with
      | ok w =>
        simp only [retryGo, hat, hpe] at h
        cases h
        exact parseAttempt_ok_parse_obj sch t v hpe
      | error e =>
        simp only [retryGo, hat, hpe] at h
        exact ih (attempt + 1) cache _ v h

/-- A first attempt whose response parses and validates returns at once,
writing the validated payload to the cache. -/
theorem retryGo_first_success {T : Type} (sch : Schema T) (agent : Nat → ServiceOutcome)
    (bp key : String) (mr left attempt : Nat) (cache : Cache) (input : List InputItem)
    (t : List Char) (v : T)
    (hat : agent attempt = .ok t) (hpe : parseAttempt sch t = .ok v) :
    retryGo sch agent bp key mr (left + 1) attempt cache input =
      ⟨some v, cachePut key (sch.dict v) cache, attempt + 1, input⟩ := by
  simp only [retryGo, hat, hpe]

/-- The loop either leaves the caller's list unchanged or overwrites
exactly its head with a feedback-augmented prompt. -/
theorem retryGo_input_shape {T : Type} (sch : Schema T) (agent : Nat → ServiceOutcome)
    (bp key : String) (mr : Nat) (i : List InputItem) :
    ∀ left attempt cache input,
    (input = i ∨ ∃ e, input = i.set 0 (.str (augmentedPrompt bp e))) →
    ((retryGo sch agent bp key mr left attempt cache input).input_data = i ∨
      ∃ e, (retryGo sch agent bp key mr left attempt cache input).input_data =
        i.set 0 (.str (augmentedPrompt bp e))) := by
  intro left
  induction left with
  | zero => intro attempt cache input h; exact h
  | succ m ih =>
    intro attempt cache input h
    cases hat : agent attempt with
    | err msg => simp only [retryGo, hat]; exact ih (attempt + 1) cache input h
    | ok t =>
      cases hpe : parseAttempt sch t with
      | ok v => simp only [retryGo, hat, hpe]; exact h
      | error e =>
        simp only [retryGo, hat, hpe]
        apply ih (attempt + 1) cache
        by_cases hlt : attempt < mr - 1
        · simp only [if_pos hlt]
          rcases h with h | ⟨e0, h⟩
          · exact Or.inr ⟨e, by rw [h]⟩
          · exact Or.inr ⟨e, by rw [h, List.set_set]⟩
        · simp only [if_neg hlt]; exact h

/-- Overwriting the head of a list leaves its tail untouched. -/
theorem drop_one_set_zero {α : Type} (l : List α) (a : α) : (l.set 0 a).drop 1 = l.drop 1 := by
  cases l <;> rfl

/-! ## Claim theorems: the structured extraction engine -/

/-- C1: when every completion-service response fails to parse or validate
against the schema (and no valid cached value short-circuits the fetch),
`get_structured_data_with_retry` invokes the completion service exactly
`max_retries` times and returns the explicit failure value `none`; the
embedding is a total function, mirroring that the source catches every
exception inside the loop and only ever `return`s. -/
theorem extract_retry_bound {T : Type} (sch : Schema T) (agent : Nat → ServiceOutcome)
    (base_prompt : String) (input_data : List InputItem) (max_retries : Nat) (cache : Cache)
    (hcache : ∀ j, cacheLookup (generate_cache_key base_prompt input_data) cache = some j →
      ∃ e, sch.parse_obj j = .error e)
    (hfail : ∀ n, n < max_retries → ∃ t e, agent n = .ok t ∧ parseAttempt sch t = .error e) :
    (get_structured_data_with_retry sch agent base_prompt input_data max_retries cache).result
        = none ∧
    (get_structured_data_with_retry sch agent base_prompt input_data max_retries cache).calls
        = max_retries := by
  have hall := retryGo_all_fail sch agent base_prompt
    (generate_cache_key base_prompt input_data) max_retries max_retries 0 cache input_data
    (fun n _ h2 => hfail n (by omega))
  unfold get_structured_data_with_retry
  cases hl : cacheLookup (generate_cache_key base_prompt input_data) cache with
  | none =>
    simp only [hl]
    exact ⟨hall.1, by rw [hall.2.1]; omega⟩
  | some j =>
    obtain ⟨e, hpe⟩ := hcache j hl
    simp only [hl, hpe]
    exact ⟨hall.1, by rw [hall.2.1]; omega⟩

/-- Witness for C1: a service that always answers non-JSON text, two
allowed attempts, an empty cache. -/
theorem extract_retry_bound_witness :
    (get_structured_data_with_retry intFieldSchema (fun _ => .ok "nope".toList) "p"
        [.str "p", .str "ctx"] 2 []).result = none ∧
    (get_structured_data_with_retry intFieldSchema (fun _ => .ok "nope".toList) "p"
        [.str "p", .str "ctx"] 2 []).calls = 2 :=
  extract_retry_bound intFieldSchema (fun _ => .ok "nope".toList) "p" [.str "p", .str "ctx"] 2 []
    (fun j h => by simp [cacheLookup, List.find?] at h)
    (fun n _ => ⟨"nope".toList, "Expecting value", rfl, rfl⟩)

/-- C2: every value the engine returns as success was produced by a
successful schema validation of some JSON payload — on the cached path and
on the fresh path alike; no partially valid value is returned as success. -/
theorem extract_schema_gate {T : Type} (sch : Schema T) (agent : Nat → ServiceOutcome)
    (base_prompt : String) (input_data : List InputItem) (max_retries : Nat) (cache : Cache)
    (v : T)
    (h : (get_structured_data_with_retry sch agent base_prompt input_data
      max_retries cache).result = some v) :
    ∃ j, sch.parse_obj j = .ok v := by
  unfold get_structured_data_with_retry at h
  cases hl : cacheLookup (generate_cache_key base_prompt input_data) cache with
  | none =>
    simp only [hl] at h
    exact retryGo_result_valid sch agent base_prompt _ max_retries max_retries 0 cache
      input_data v h
  | some j =>
    simp only [hl] at h
    cases hp : sch.parse_obj j with
    | ok w =>
      simp only [hp, Option.some.injEq] at h
      exact ⟨j, by rw [hp, h]⟩
    | error e =>
      simp only [hp] at h
      exact retryGo_result_valid sch agent base_prompt _ max_retries max_retries 0 cache
        input_data v h

/-- Witness for C2: a service returning plain valid JSON; the success value
1 indeed deserializes from a JSON payload. -/
theorem extract_schema_gate_witness :
    (get_structured_data_with_retry intFieldSchema
        (fun _ => .ok "\x7b\"a\": 1\x7d".toList) "p" [.str "p", .str "ctx"] 3 []).result
      = some 1 ∧
    ∃ j, intFieldSchema.parse_obj j = .ok 1 :=
  ⟨rfl, extract_schema_gate intFieldSchema (fun _ => .ok "\x7b\"a\": 1\x7d".toList) "p"
    [.str "p", .str "ctx"] 3 [] 1 rfl⟩

/-- C3: on a cache with no entry for the key, a first call whose first
response validates makes exactly one service call and succeeds; a second
call with byte-identical prompt and context payloads — whose cache key
therefore agrees — against the resulting cache returns the identical value
with zero service calls, whatever the service would now answer. -/
theorem extract_cache_idempotent {T : Type} (sch : Schema T)
    (agent agent2 : Nat → ServiceOutcome) (base_prompt : String)
    (input_data : List InputItem) (max_retries : Nat) (cache : Cache) (t : List Char) (v : T)
    (hrt : sch.parse_obj (sch.dict v) = .ok v)
    (hmiss : cacheLookup (generate_cache_key base_prompt input_data) cache = none)
    (hmr : 1 ≤ max_retries)
    (h0 : agent 0 = .ok t)
    (hp : parseAttempt sch t = .ok v) :
    (get_structured_data_with_retry sch agent base_prompt input_data
      max_retries cache).result = some v ∧
    (get_structured_data_with_retry sch agent base_prompt input_data
      max_retries cache).calls = 1 ∧
    (get_structured_data_with_retry sch agent2 base_prompt input_data max_retries
      (get_structured_data_with_retry sch agent base_prompt input_data
        max_retries cache).cache).result = some v ∧
    (get_structured_data_with_retry sch agent2 base_prompt input_data max_retries
      (get_structured_data_with_retry sch agent base_prompt input_data
        max_retries cache).cache).calls = 0 := by
  obtain ⟨m, rfl⟩ : ∃ m, max_retries = m + 1 := ⟨max_retries - 1, by omega⟩
  have h1 : get_structured_data_with_retry sch agent base_prompt input_data (m + 1) cache
      = ⟨some v, cachePut (generate_cache_key base_prompt input_data) (sch.dict v) cache,
          1, input_data⟩ := by
    unfold get_structured_data_with_retry
    simp only [hmiss]
    exact retryGo_first_success sch agent base_prompt _ (m + 1) m 0 cache input_data t v h0 hp
  have h2 : get_structured_data_with_retry sch agent2 base_prompt input_data (m + 1)
      (cachePut (generate_cache_key base_prompt input_data) (sch.dict v) cache)
      = ⟨some v, cachePut (generate_cache_key base_prompt input_data) (sch.dict v) cache,
          0, input_data⟩ := by
    unfold get_structured_data_with_retry
    simp only [cacheLookup_cachePut_self, hrt]
  rw [h1]
  exact ⟨rfl, rfl, by rw [h2], by rw [h2]⟩

/-- Witness for C3: concrete service, schema and inputs. -/
theorem extract_cache_idempotent_witness :
    (get_structured_data_with_retry intFieldSchema
      (fun _ => .ok "\x7b\"a\": 7\x7d".toList) "p" [.str "p", .str "ctx"] 3 []).result
        = some 7 ∧
    (get_structured_data_with_retry intFieldSchema
      (fun _ => .ok "\x7b\"a\": 7\x7d".toList) "p" [.str "p", .str "ctx"] 3 []).calls = 1 ∧
    (get_structured_data_with_retry intFieldSchema (fun _ => .err "service down") "p"
      [.str "p", .str "ctx"] 3
      (get_structured_data_with_retry intFieldSchema
        (fun _ => .ok "\x7b\"a\": 7\x7d".toList) "p" [.str "p", .str "ctx"] 3 []).cache).result
        = some 7 ∧
    (get_structured_data_with_retry intFieldSchema (fun _ => .err "service down") "p"
      [.str "p", .str "ctx"] 3
      (get_structured_data_with_retry intFieldSchema
        (fun _ => .ok "\x7b\"a\": 7\x7d".toList) "p" [.str "p", .str "ctx"] 3 []).cache).calls
        = 0 :=
  extract_cache_idempotent intFieldSchema (fun _ => .ok "\x7b\"a\": 7\x7d".toList)
    (fun _ => .err "service down") "p" [.str "p", .str "ctx"] 3 [] "\x7b\"a\": 7\x7d".toList 7
    rfl rfl (by omega) rfl rfl

/-- C4: a cache hit whose payload fails schema validation behaves exactly
like a cache miss: the returned value, the number of completion-service
calls and the final input state coincide with those of the same call made
against a cache lacking the key — the engine refetches instead of
returning the stale value or failing. -/
theorem extract_invalid_cache_hit_refetches {T : Type} (sch : Schema T)
    (agent : Nat → ServiceOutcome) (base_prompt : String) (input_data : List InputItem)
    (max_retries : Nat) (chit cmiss : Cache) (j : Json) (e : String)
    (hhit : cacheLookup (generate_cache_key base_prompt input_data) chit = some j)
    (hinv : sch.parse_obj j = .error e)
    (hmiss : cacheLookup (generate_cache_key base_prompt input_data) cmiss = none) :
    (get_structured_data_with_retry sch agent base_prompt input_data max_retries chit).result
      = (get_structured_data_with_retry sch agent base_prompt input_data
          max_retries cmiss).result ∧
    (get_structured_data_with_retry sch agent base_prompt input_data max_retries chit).calls
      = (get_structured_data_with_retry sch agent base_prompt input_data
          max_retries cmiss).calls ∧
    (get_structured_data_with_retry sch agent base_prompt input_data
        max_retries chit).input_data
      = (get_structured_data_with_retry sch agent base_prompt input_data
          max_retries cmiss).input_data := by
  unfold get_structured_data_with_retry
  simp only [hhit, hinv, hmiss]
  exact retryGo_cache_agnostic sch agent base_prompt _ max_retries max_retries 0
    input_data chit cmiss

/-- Witness for C4: a cache holding `null` under the key (which the schema
rejects) behaves like the empty cache. -/
theorem extract_invalid_cache_hit_refetches_witness :
    (get_structured_data_with_retry intFieldSchema
      (fun _ => .ok "\x7b\"a\": 3\x7d".toList) "p" [.str "p", .str "ctx"] 3
      [("pctx", .null)]).result
      = (get_structured_data_with_retry intFieldSchema
          (fun _ => .ok "\x7b\"a\": 3\x7d".toList) "p" [.str "p", .str "ctx"] 3 []).result ∧
    (get_structured_data_with_retry intFieldSchema
      (fun _ => .ok "\x7b\"a\": 3\x7d".toList) "p" [.str "p", .str "ctx"] 3
      [("pctx", .null)]).calls
      = (get_structured_data_with_retry intFieldSchema
          (fun _ => .ok "\x7b\"a\": 3\x7d".toList) "p" [.str "p", .str "ctx"] 3 []).calls ∧
    (get_structured_data_with_retry intFieldSchema
      (fun _ => .ok "\x7b\"a\": 3\x7d".toList) "p" [.str "p", .str "ctx"] 3
      [("pctx", .null)]).input_data
      = (get_structured_data_with_retry intFieldSchema
          (fun _ => .ok "\x7b\"a\": 3\x7d".toList) "p" [.str "p", .str "ctx"] 3
          []).input_data :=
  extract_invalid_cache_hit_refetches intFieldSchema
    (fun _ => .ok "\x7b\"a\": 3\x7d".toList) "p" [.str "p", .str "ctx"] 3
    [("pctx", .null)] [] .null "field a missing" rfl rfl rfl

/-- C7 counterexample: the response text embeds the well-formed JSON
object with field a = 1 — which the schema accepts — inside surrounding
prose, yet the engine fails every attempt and returns `none`: the cleaner
only strips code-fence markers, it does not recover an embedded JSON
object from a larger response text. -/
theorem embedded_json_rejected :
    List.IsInfix ("\x7b\"a\": 1\x7d".toList)
      ("Here is the result: \x7b\"a\": 1\x7d".toList) ∧
    jsonLoads "\x7b\"a\": 1\x7d".toList = .ok (.obj [("a".toList, .num 1)]) ∧
    intFieldSchema.parse_obj (.obj [("a".toList, .num 1)]) = .ok 1 ∧
    (get_structured_data_with_retry intFieldSchema
      (fun _ => .ok "Here is the result: \x7b\"a\": 1\x7d".toList) "p"
      [.str "p", .str "ctx"] 3 []).result = none :=
  ⟨⟨"Here is the result: ".toList, [], by decide⟩, rfl, rfl, rfl⟩

/-- C7 amended: the engine accepts plain JSON and JSON fenced in a code
block — whenever stripping the fence markers and surrounding whitespace
leaves one JSON document the schema accepts, the first attempt succeeds —
but JSON embedded in other surrounding text makes the attempt fail. -/
theorem cleaned_json_accepted {T : Type} (sch : Schema T) (agent : Nat → ServiceOutcome)
    (base_prompt : String) (input_data : List InputItem) (max_retries : Nat) (cache : Cache)
    (t : List Char) (j : Json) (v : T)
    (hcache : ∀ jc, cacheLookup (generate_cache_key base_prompt input_data) cache = some jc →
      ∃ e, sch.parse_obj jc = .error e)
    (hmr : 1 ≤ max_retries)
    (h0 : agent 0 = .ok t)
    (hj : jsonLoads (cleanResponse t) = .ok j)
    (hv : sch.parse_obj j = .ok v) :
    (get_structured_data_with_retry sch agent base_prompt input_data
      max_retries cache).result = some v := by
  have hp : parseAttempt sch t = .ok v := by unfold parseAttempt; rw [hj]; exact hv
  obtain ⟨m, rfl⟩ : ∃ m, max_retries = m + 1 := ⟨max_retries - 1, by omega⟩
  unfold get_structured_data_with_retry
  cases hl : cacheLookup (generate_cache_key base_prompt input_data) cache with
  | none =>
    simp only [hl]
    rw [retryGo_first_success sch agent base_prompt _ (m + 1) m 0 cache input_data t v h0 hp]
  | some jc =>
    obtain ⟨e, he⟩ := hcache jc hl
    simp only [hl, he]
    rw [retryGo_first_success sch agent base_prompt _ (m + 1) m 0 cache input_data t v h0 hp]

/-- Witness for the amended C7: a fenced JSON response is accepted. -/
theorem cleaned_json_accepted_witness :
    (get_structured_data_with_retry intFieldSchema
      (fun _ => .ok "```json\n\x7b\"a\": 1\x7d\n```".toList) "p"
      [.str "p", .str "ctx"] 3 []).result = some 1 :=
  cleaned_json_accepted intFieldSchema (fun _ => .ok "```json\n\x7b\"a\": 1\x7d\n```".toList)
    "p" [.str "p", .str "ctx"] 3 [] "```json\n\x7b\"a\": 1\x7d\n```".toList
    (.obj [("a".toList, .num 1)]) 1
    (fun jc h => by simp [cacheLookup, List.find?] at h) (by omega) rfl rfl rfl

/-- C9 counterexample: with two failing attempts, the engine overwrites the
caller's `input_data[0]` — the aliased list is mutated, so after the call
it no longer holds the base prompt at position 0. -/
theorem extract_mutates_input :
    (get_structured_data_with_retry intFieldSchema (fun _ => .ok "nope".toList) "p"
      [.str "p", .str "ctx"] 2 []).input_data
      = [.str (augmentedPrompt "p" "Expecting value"), .str "ctx"] ∧
    augmentedPrompt "p" "Expecting value" ≠ "p" :=
  ⟨rfl, by decide⟩

/-- C9 amended: after any call the context payloads `input_data[1:]` are
exactly those passed in, and the whole list is either untouched or has
exactly its head overwritten with the feedback-augmented prompt written on
the retry-with-feedback path. -/
theorem extract_preserves_context_payloads {T : Type} (sch : Schema T)
    (agent : Nat → ServiceOutcome) (base_prompt : String) (input_data : List InputItem)
    (max_retries : Nat) (cache : Cache) :
    (get_structured_data_with_retry sch agent base_prompt input_data
        max_retries cache).input_data.drop 1 = input_data.drop 1 ∧
    ((get_structured_data_with_retry sch agent base_prompt input_data
        max_retries cache).input_data = input_data ∨
      ∃ e, (get_structured_data_with_retry sch agent base_prompt input_data
        max_retries cache).input_data
          = input_data.set 0 (.str (augmentedPrompt base_prompt e))) := by
  have hshape : (get_structured_data_with_retry sch agent base_prompt input_data
      max_retries cache).input_data = input_data ∨
      ∃ e, (get_structured_data_with_retry sch agent base_prompt input_data
        max_retries cache).input_data
          = input_data.set 0 (.str (augmentedPrompt base_prompt e)) := by
    unfold get_structured_data_with_retry
    cases hl : cacheLookup (generate_cache_key base_prompt input_data) cache with
    | none =>
      simp only [hl]
      exact retryGo_input_shape sch agent base_prompt _ max_retries input_data
        max_retries 0 cache input_data (Or.inl rfl)
    | some j =>
      simp only [hl]
      cases hp : sch.parse_obj j with
      | ok w => simp only [hp]; exact Or.inl trivial
      | error e =>
        simp only [hp]
        exact retryGo_input_shape sch agent base_prompt _ max_retries input_data
          max_retries 0 cache input_data (Or.inl rfl)
  refine ⟨?_, hshape⟩
  rcases hshape with h | ⟨e, h⟩
  · rw [h]
  · rw [h, drop_one_set_zero]

/-! ## Claim theorems: pipeline and synthesizer -/

/-- C5 counterexample: the empty document and a whitespace-only document
make `process_document` return the bare failure marker
`\x7b'status': 'failed', 'stage': 'preprocessing'\x7d`, not a
SynthesizedKnowledge with empty collections and confidence 0. -/
theorem empty_document_failure_marker :
    process_document (fun _ => ()) [] = .preprocessingFailed ∧
    process_document (fun _ => ()) " \n \t ".toList = .preprocessingFailed ∧
    process_document (fun _ => ()) [] ≠ .success () :=
  ⟨rfl, rfl, by simp [process_document, preprocess_document]⟩

/-- C5 amended: on empty input — in fact whenever the stripped text has
fewer than 100 characters — `process_document` returns the explicit
preprocessing-failure dictionary (the embedding is total, so nothing is
raised); only documents that pass preprocessing reach the synthesis
stages at all. -/
theorem pipeline_short_input_failure_marker {F : Type} (stages : PreprocessResult → F)
    (full_text : List Char)
    (h : full_text = [] ∨ (pyStrip full_text).length < 100) :
    process_document stages full_text = .preprocessingFailed := by
  unfold process_document preprocess_document
  rw [if_pos h]

/-- Witness for the amended C5: the empty document. -/
theorem pipeline_short_input_failure_marker_witness :
    process_document (fun _ => ()) [] = .preprocessingFailed :=
  pipeline_short_input_failure_marker (fun _ => ()) [] (Or.inl rfl)

/-- Projecting the keys of a keyed map built over a list gives back the
list. -/
theorem map_fst_keyed {β : Type} (g : String → β) :
    ∀ l : List String, (l.map (fun x => (x, g x))).map (fun p => p.1) = l := by
  intro l
  induction l with
  | nil => rfl
  | cons x xs ih => simp [ih]

/-- Looking up a key of a keyed map built over a list containing it yields
the value computed from that key. -/
theorem lookup_map_self {β : Type} (f : String → β) :
    ∀ (l : List String) (a : String), a ∈ l →
      (l.map (fun x => (x, f x))).lookup a = some (f a) := by
  intro l
  induction l with
  | nil => intro a h; cases h
  | cons x xs ih =>
    intro a h
    by_cases hax : a = x
    · subst hax; simp [List.lookup]
    · have hmem : a ∈ xs := by
        rcases List.mem_cons.mp h with h | h
        · exact absurd h hax
        · exact h
      have hbeq : (a == x) = false := beq_eq_false_iff_ne.mpr hax
      simp only [List.map_cons, List.lookup, hbeq]
      exact ih a hmem

/-- C6 counterexample: a plan requiring the map analyst and the
geochemist, the map analyst raising and the geochemist succeeding with
the live pydantic payload successful experts actually return.  The
fan-out records both entries correctly, yet on the matching Phase-3 input
the synthesizer's dict-only accessor raises on the pydantic payload and
the run ends with `synthesized_knowledge = None` and status 'failed' —
not a SynthesizedKnowledge. -/
theorem synthesizer_fails_on_live_payload :
    (run_expert_agents_parallel
        (fun a => if a = "map_analyst" then Except.error "boom"
          else Except.ok (⟨1, .pyObj ⟨[.typed
            ⟨"c1", "basalt", "tholeiitic", "txt", [], 1/2, none⟩]⟩⟩ : GeochemResultDuck))
        [.typed "map_analyst", .typed "geochemist"]).lookup "map_analyst"
      = some (.failed "boom") ∧
    (run_expert_agents_parallel
        (fun a => if a = "map_analyst" then Except.error "boom"
          else Except.ok (⟨1, .pyObj ⟨[.typed
            ⟨"c1", "basalt", "tholeiitic", "txt", [], 1/2, none⟩]⟩⟩ : GeochemResultDuck))
        [.typed "map_analyst", .typed "geochemist"]).lookup "geochemist"
      = some (.ok ⟨1, .pyObj ⟨[.typed
            ⟨"c1", "basalt", "tholeiitic", "txt", [], 1/2, none⟩]⟩⟩) ∧
    (synthesizer_process "k" (fun _ => "u") (fun _ _ => "u") (fun _ _ => "u")
        ⟨"doc", ⟨0, .absent⟩,
          ⟨1, .pyObj ⟨[.typed ⟨"c1", "basalt", "tholeiitic", "txt", [], 1/2, none⟩]⟩⟩,
          ⟨0, .absent⟩⟩).synthesized_knowledge = none ∧
    (synthesizer_process "k" (fun _ => "u") (fun _ _ => "u") (fun _ _ => "u")
        ⟨"doc", ⟨0, .absent⟩,
          ⟨1, .pyObj ⟨[.typed ⟨"c1", "basalt", "tholeiitic", "txt", [], 1/2, none⟩]⟩⟩,
          ⟨0, .absent⟩⟩).processing_status = "failed" :=
  ⟨rfl, rfl, rfl, rfl⟩

/-- C6 amended: whatever single required expert agent fails (raises or
times out), the fan-out still records an entry for every required agent —
the failing agent as the failure-marker entry carrying the error, every
other agent with exactly the value it returned.  The Phase-3 synthesizer,
however, produces a SynthesizedKnowledge only when every expert payload it
receives is dict-shaped or absent; whenever any payload is a live pydantic
object — the shape successful experts return — its dict-only accessors
raise and the run ends with `synthesized_knowledge = None` and status
'failed'. -/
theorem fanout_isolation {R : Type} (outcome : String → Except String R)
    (task_plan : List TaskItem) (bad : String) (e : String)
    (hbad : bad ∈ requiredAgents task_plan)
    (hfail : outcome bad = .error e) :
    ((run_expert_agents_parallel outcome task_plan).map (fun p => p.1)
        = requiredAgents task_plan) ∧
    ((run_expert_agents_parallel outcome task_plan).lookup bad
        = some (.failed e)) ∧
    (∀ a, a ∈ requiredAgents task_plan → ∀ r, outcome a = .ok r →
      (run_expert_agents_parallel outcome task_plan).lookup a = some (.ok r)) ∧
    (∀ uuidK uuidLoc uuidGeo uuidDrill (input : SynthInputDuck),
      (input.map_result.geospatial_data.isObj = false →
        input.geochem_result.geochemical_knowledge.isObj = false →
        input.data_result.extraction_report.isObj = false →
        (synthesizer_process uuidK uuidLoc uuidGeo uuidDrill
            input).synthesized_knowledge.isSome = true ∧
        (synthesizer_process uuidK uuidLoc uuidGeo uuidDrill input).processing_status
            = "success") ∧
      ((input.map_result.geospatial_data.isObj = true ∨
        input.geochem_result.geochemical_knowledge.isObj = true ∨
        input.data_result.extraction_report.isObj = true) →
        (synthesizer_process uuidK uuidLoc uuidGeo uuidDrill
            input).synthesized_knowledge = none ∧
        (synthesizer_process uuidK uuidLoc uuidGeo uuidDrill input).processing_status
            = "failed")) := by
  refine ⟨?_, ?_, ?_, ?_⟩
  · unfold run_expert_agents_parallel
    exact map_fst_keyed _ (requiredAgents task_plan)
  · rw [run_expert_agents_parallel, lookup_map_self _ _ bad hbad, hfail]
  · intro a ha r hr
    rw [run_expert_agents_parallel, lookup_map_self _ _ a ha, hr]
  · intro uuidK uuidLoc uuidGeo uuidDrill input
    obtain ⟨src, ⟨fc, mp⟩, ⟨cc, gp⟩, ⟨tc, dp⟩⟩ := input
    constructor
    · intro hm hg hd
      cases mp <;> cases gp <;> cases dp <;>
        simp_all [synthesizer_process, cross_validate_knowledge_duck,
          validate_spatial_consistency_duck, map_to_database_schema_duck,
          create_location_records_duck, create_geochemistry_records_duck,
          create_drilling_records_duck, PyPayload.isObj]
    · intro h
      cases mp <;> cases gp <;> cases dp <;>
        simp_all [synthesizer_process, cross_validate_knowledge_duck,
          validate_spatial_consistency_duck, map_to_database_schema_duck,
          create_location_records_duck, create_geochemistry_records_duck,
          create_drilling_records_duck, PyPayload.isObj, synthesisFailure]

/-- Witness for the amended C6: a plan requiring the map analyst and the
geochemist, with the geochemist raising and the map analyst returning 0;
the synthesizer succeeds on an all-absent Phase-3 input and fails on one
carrying a live pydantic payload. -/
theorem fanout_isolation_witness :
    ((run_expert_agents_parallel
        (fun a => if a = "geochemist" then .error "boom" else .ok 0)
        [.typed "geochemist", .dictTask (some "map_analyst")]).map (fun p => p.1)
      = ["map_analyst", "geochemist"]) ∧
    (run_expert_agents_parallel
        (fun a => if a = "geochemist" then .error "boom" else .ok 0)
        [.typed "geochemist", .dictTask (some "map_analyst")]).lookup "geochemist"
      = some (.failed "boom") ∧
    (run_expert_agents_parallel
        (fun a => if a = "geochemist" then .error "boom" else .ok 0)
        [.typed "geochemist", .dictTask (some "map_analyst")]).lookup "map_analyst"
      = some (.ok 0) ∧
    (synthesizer_process "k" (fun _ => "u") (fun _ _ => "u") (fun _ _ => "u")
        ⟨"doc", ⟨0, .absent⟩, ⟨0, .absent⟩, ⟨0, .absent⟩⟩).processing_status = "success" ∧
    (synthesizer_process "k" (fun _ => "u") (fun _ _ => "u") (fun _ _ => "u")
        ⟨"doc", ⟨0, .absent⟩, ⟨0, .pyObj ⟨[]⟩⟩, ⟨0, .absent⟩⟩).processing_status
      = "failed" := by
  have H := fanout_isolation
    (fun a => if a = "geochemist" then Except.error "boom" else Except.ok (0 : Nat))
    [.typed "geochemist", .dictTask (some "map_analyst")] "geochemist" "boom"
    (by decide) rfl
  refine ⟨?_, H.2.1, ?_, ?_, ?_⟩
  · rw [H.1]; decide
  · exact H.2.2.1 "map_analyst" (by decide) 0 rfl
  · exact ((H.2.2.2 "k" (fun _ => "u") (fun _ _ => "u") (fun _ _ => "u")
      ⟨"doc", ⟨0, .absent⟩, ⟨0, .absent⟩, ⟨0, .absent⟩⟩).1 rfl rfl rfl).2
  · exact ((H.2.2.2 "k" (fun _ => "u") (fun _ _ => "u") (fun _ _ => "u")
      ⟨"doc", ⟨0, .absent⟩, ⟨0, .pyObj ⟨[]⟩⟩, ⟨0, .absent⟩⟩).2
      (Or.inr (Or.inl rfl))).2

/-- Element records never carry the `geochemistry` table name. -/
theorem element_records_not_geochem_table (ids : Nat → String) (gid : String) :
    ∀ evs k, (create_element_records_go ids gid k evs).countP
      (fun r => r.table_name == "geochemistry") = 0 := by
  intro evs
  induction evs with
  | nil => intro k; rfl
  | cons ev rest ih =>
    intro k
    simp [create_element_records_go, List.countP_cons, ih (k + 1)]

/-- With no location records, the conclusions loop emits exactly one
`geochemistry` record per typed conclusion. -/
theorem geochem_go_one_record_per_conclusion (uuid : Nat → Nat → String) (src : String) :
    ∀ (l : List ConclusionItem) (idx : Nat),
      (create_geochemistry_records_go uuid src [] idx l).countP
        (fun r => r.table_name == "geochemistry") = countTypedConclusions l := by
  intro l
  induction l with
  | nil => intro idx; rfl
  | cons item rest ih =>
    intro idx
    cases item with
    | untyped => simpa [create_geochemistry_records_go, countTypedConclusions] using ih (idx + 1)
    | typed c =>
      simp [create_geochemistry_records_go, create_records_for_conclusion,
        List.countP_append, List.countP_cons, countTypedConclusions,
        element_records_not_geochem_table, ih (idx + 1)]

/-- Element records trivially satisfy any predicate that only constrains
geochemistry payloads. -/
theorem element_records_all_null_fk (ids : Nat → String) (gid : String) :
    ∀ evs k, (create_element_records_go ids gid k evs).all (fun r =>
      match r.data with
      | .geochemistry d => d.location_id.isNone
      | _ => true) = true := by
  intro evs
  induction evs with
  | nil => intro k; rfl
  | cons ev rest ih =>
    intro k
    simp [create_element_records_go, List.all_cons, ih (k + 1)]

/-- With no location records, every geochemistry record of the conclusions
loop has an absent `location_id`. -/
theorem geochem_go_null_fk (uuid : Nat → Nat → String) (src : String) :
    ∀ (l : List ConclusionItem) (idx : Nat),
      (create_geochemistry_records_go uuid src [] idx l).all (fun r =>
        match r.data with
        | .geochemistry d => d.location_id.isNone
        | _ => true) = true := by
  intro l
  induction l with
  | nil => intro idx; rfl
  | cons item rest ih =>
    intro idx
    cases item with
    | untyped => simpa [create_geochemistry_records_go] using ih (idx + 1)
    | typed c =>
      simp [create_geochemistry_records_go, create_records_for_conclusion,
        List.all_append, List.all_cons, element_records_all_null_fk, ih (idx + 1)]

/-- With no location records the table loop of the drilling mapper emits
nothing at all. -/
theorem drilling_go_empty_locations (uuid : Nat → Nat → String) (src : String) :
    ∀ (l : List TableItem) (ti : Nat),
      create_drilling_records_go uuid src [] ti l = [] := by
  intro l
  induction l with
  | nil => intro ti; rfl
  | cons item rest ih =>
    intro ti
    cases item with
    | untyped => simpa [create_drilling_records_go] using ih (ti + 1)
    | typed t => simpa [create_drilling_records_go] using ih (ti + 1)

/-- C8 amended: when the set of location records is empty, geochemistry
records are still emitted — exactly one per conclusion with a
`conclusion_id` — and each carries an absent `location_id` foreign key;
drilling-data records, by contrast, are dropped entirely in that case. -/
theorem record_mapping_null_fk (uuidG uuidD : Nat → Nat → String) (src : String)
    (gk : Option GeochemBlob) (er : Option ExtractionBlob) :
    ((create_geochemistry_records uuidG src gk []).countP
        (fun r => r.table_name == "geochemistry")
      = match gk with
        | none => 0
        | some g => countTypedConclusions g.conclusions) ∧
    ((create_geochemistry_records uuidG src gk []).all (fun r =>
        match r.data with
        | .geochemistry d => d.location_id.isNone
        | _ => true) = true) ∧
    create_drilling_records uuidD src er [] = [] := by
  refine ⟨?_, ?_, ?_⟩
  · cases gk with
    | none => rfl
    | some g => exact geochem_go_one_record_per_conclusion uuidG src g.conclusions 0
  · cases gk with
    | none => rfl
    | some g => exact geochem_go_null_fk uuidG src g.conclusions 0
  · cases er with
    | none => rfl
    | some e => exact drilling_go_empty_locations uuidD src e.standardized_tables 0

/-- C8 counterexample: the very same drilling table with one data row is
emitted when a location record exists, but dropped entirely — rather than
emitted with a null foreign key — when the set of location records is
empty. -/
theorem drilling_records_dropped_without_location :
    create_drilling_records (fun _ _ => "uuid-d") "doc"
      (some ⟨[.typed ⟨"t1", "drill log", ["Depth"],
        [⟨some [("Depth", .num 5)], some 1⟩]⟩]⟩) [] = [] ∧
    (create_drilling_records (fun _ _ => "uuid-d") "doc"
      (some ⟨[.typed ⟨"t1", "drill log", ["Depth"],
        [⟨some [("Depth", .num 5)], some 1⟩]⟩]⟩)
      [⟨"locations", "loc-1",
        .location ⟨"loc-1", "Site", "unknown", [], "WGS84", "", 1/2, "doc"⟩, []⟩]).length
      = 1 :=
  ⟨rfl, rfl⟩

/-- C10: the domain-signal consistency check always reports valid:
validity requires fewer than two issues, and the only two possible issues
— a conclusions count below one, and a positive conclusions count with
zero supporting tables — are mutually exclusive, whatever integer counts
the geochemist and data-analyst results carry. -/
theorem geochemical_consistency_always_valid (conclusions_count tables_count : Int) :
    (validate_geochemical_consistency conclusions_count tables_count).is_valid = true := by
  unfold validate_geochemical_consistency
  by_cases h1 : conclusions_count < 1
  · have h2 : ¬(0 < conclusions_count ∧ tables_count = 0) := by
      rintro ⟨hpos, -⟩; omega
    simp [h1, h2]
  · by_cases h2 : 0 < conclusions_count ∧ tables_count = 0
    · simp [h1, h2]
    · simp [h1, h2]

end GeoMind
